import Mathlib

/-!
Verification of the truenas_installer sources against the natural-language
specification.  Each Python function relevant to the claims is embedded as an
executable Lean definition: pure helpers become Lean functions, stateful code
becomes explicit state passing, Python exceptions become Option/Except/error
flags.  Machine floats in the sources appear only in `UnitPrefix.find_unit`
(float division used solely for a `> 1.0` comparison on integer inputs); the
embedding uses exact rational division, which agrees with the float code on
all integer byte counts that fit the Python int-to-float conversion.
-/

/-! ## utils.py — class UnitPrefix (unit constants, find_unit, format_bytes) -/

/-- Source `utils.py`, `UnitPrefix.kB = 1000`. -/

def kB : Nat := 1000

/-- Source `utils.py`, `UnitPrefix.kiB = 1024`. -/

def kiB : Nat := 1024

/-- Source `utils.py`, `UnitPrefix.MB = 1000 * kB`. -/

def MB : Nat := 1000 * kB

/-- Source `utils.py`, `UnitPrefix.MiB = 1024 * kiB`. -/

def MiB : Nat := 1024 * kiB

/-- Source `utils.py`, `UnitPrefix.GB = 1000 * MB`. -/

def GB : Nat := 1000 * MB

/-- Source `utils.py`, `UnitPrefix.GiB = 1024 * MiB`. -/

def GiB : Nat := 1024 * MiB

/-- Source `utils.py`, `UnitPrefix.TB = 1000 * GB`. -/

def TB : Nat := 1000 * GB

/-- Source `utils.py`, `UnitPrefix.TiB = 1024 * GiB`. -/

def TiB : Nat := 1024 * GiB

/-- The list literal iterated by `UnitPrefix.find_unit`:
`[(TiB,"TiB"),(GiB,"GiB"),(MiB,"MiB"),(kiB,"kiB"),(1,"B")]`. -/

def unitTable : List (Nat × String) :=
  [(TiB, "TiB"), (GiB, "GiB"), (MiB, "MiB"), (kiB, "kiB"), (1, "B")]

/-- The loop body of `UnitPrefix.find_unit`: walk the unit list, compute
`cap = num / mult` and return the first `(cap, unit)` with `cap > 1.0`. -/

def findUnitWalk (num : ℚ) : List (Nat × String) → Option (ℚ × String)
  | [] => none
  | (mult, u) :: rest =>
    let cap := num / (mult : ℚ)
    if 1 < cap then some (cap, u) else findUnitWalk num rest

/-- Source `utils.py`, `UnitPrefix.find_unit(num)`: `num = float(num)` then the
first-match walk over the unit table; falls off the end (returns `None`) when
no unit gives a ratio above 1. -/

def find_unit (num : Nat) : Option (ℚ × String) :=
  findUnitWalk (num : ℚ) unitTable

/-- Source `utils.py`, `UnitPrefix.format_bytes(num)`: destructures
`find_unit(num)` — a `TypeError` (modelled as `none`) when `find_unit`
returned `None` — and renders the pair.  The decimal rendering
(`round(cap, 1)` followed by `.strip('.0')` and the unit suffix) is
presentation-only; no claim depends on it, so the embedding keeps the
`(value, unit)` pair that the rendering consumes. -/

def format_bytes (num : Nat) : Option (ℚ × String) :=
  find_unit num

/-! ## diskutils.py — Mount option serialization (claim C6) -/

/-- Python values that can appear in the `Mount` options dict. -/

inductive PyVal
  | bool (b : Bool)
  | none
  | str (s : String)
  | int (n : Int)
  deriving DecidableEq, Repr

/-- Python truthiness for the value forms above: `False`, `None`, `""` and `0`
are falsy, everything else truthy. -/

def truthy : PyVal → Bool
  | .bool b => b
  | .none => false
  | .str s => s ≠ ""
  | .int n => n ≠ 0

/-- Python `f"{value}"` for the value forms above. -/

def pyStr : PyVal → String
  | .bool true => "True"
  | .bool false => "False"
  | .none => "None"
  | .str s => s
  | .int n => toString n

/-- Source `diskutils.py`, the option loop of `Mount.mount`:
for each `(name, value)` — if `value` is truthy, append `name` when
`value is True` and `name=value` otherwise; `elif value is False: continue`;
any other (falsy, non-`False`) value falls through to `opts.append(name)`. -/

def mountOptsLoop : List (String × PyVal) → List String → List String
  | [], opts => opts
  | (name, value) :: rest, opts =>
    if truthy value then
      mountOptsLoop rest
        (opts ++ [if value = PyVal.bool true then name else name ++ "=" ++ pyStr value])
    else if value = PyVal.bool false then
      mountOptsLoop rest opts
    else
      mountOptsLoop rest (opts ++ [name])

/-- The `opts` list built by `Mount.mount` from its options dict. -/

def mount_opts (options : List (String × PyVal)) : List String :=
  mountOptsLoop options []

/-- Source `diskutils.py`, `Mount.mount`: `if self.options:` then, when the
serialized list is non-empty, a single `-o` named argument whose value joins
the options with commas. -/

def mount_o_args (options : List (String × PyVal)) : List String :=
  if options.isEmpty then []
  else
    let opts := mount_opts options
    if 0 < opts.length then ["-o", String.intercalate "," opts] else []

/-- Modelled from the spec words for claim C6 (refinement comparison only):
"boolean `true` → bare flag name; falsy → omitted; otherwise `name=value`". -/

def specSerializeOption (nv : String × PyVal) : Option String :=
  if nv.2 = PyVal.bool true then some nv.1
  else if truthy nv.2 = false then Option.none
  else some (nv.1 ++ "=" ++ pyStr nv.2)

/-- What the code actually emits per option: truthy `True` → bare name; other
truthy → `name=value`; `False` → omitted; any other falsy value → bare name. -/

def serializeOptionActual (nv : String × PyVal) : Option String :=
  if truthy nv.2 then
    some (if nv.2 = PyVal.bool true then nv.1 else nv.1 ++ "=" ++ pyStr nv.2)
  else if nv.2 = PyVal.bool false then Option.none
  else some nv.1

/-! ## diskutils.py — class PartitionType (claim C7) -/

/-- Python errors raised by the modelled code paths. -/

inductive PyErr
  | recursionError
  | attributeError
  | unknownType
  | tooSmall
  deriving DecidableEq, Repr

/-- Source `diskutils.py`, `class PartitionType(str, Enum)` with the four
variants BIOS, EFI, LinuxSwap, ZFS (enum values "EF02", "EF00", "8200",
"BF01"). -/

inductive PartitionType
  | BIOS
  | EFI
  | LinuxSwap
  | ZFS
  deriving DecidableEq, Repr

/-- Property `PartitionType.id` returns `str(self)`; for a `(str, Enum)`
member, `Enum.__str__` yields `"PartitionType.<Name>"` — not the short
type-code value. -/

def PartitionType.id : PartitionType → String
  | .BIOS => "PartitionType.BIOS"
  | .EFI => "PartitionType.EFI"
  | .LinuxSwap => "PartitionType.LinuxSwap"
  | .ZFS => "PartitionType.ZFS"

/-- The canonical GUID literals written in the body of the `guid` property. -/

def PartitionType.guidLit : PartitionType → String
  | .BIOS => "21686148-6449-6E6F-744E-656564454649"
  | .EFI => "C12A7328-F81F-11D2-BA4B-00A0C93EC93B"
  | .LinuxSwap => "0657FD6D-A4AB-43C4-84E5-0933C84B4F4F"
  | .ZFS => "6A898CC3-1DD2-11B2-99A6-080020736631"

/-- Property `PartitionType.guid` as it actually evaluates: its body tests
`self == PartitionType.BIOS` (then EFI, …) through the overridden `__eq__`,
which evaluates `self.guid` whenever its `id` test fails.  For BIOS the very
first test succeeds via the `id` string (`str(BIOS) == BIOS` matches through
the reflected `__eq__`), so the BIOS literal is returned; for every other
member, `__eq__(self, BIOS)` re-enters `self.guid` and the mutual recursion
raises `RecursionError` (modelled as `none`). -/

def PartitionType.guid : PartitionType → Option String
  | .BIOS => some (PartitionType.guidLit .BIOS)
  | _ => Option.none

/-- Source `diskutils.py`, `PartitionType.__eq__(self, uid)` against a plain
string `uid` (also the reflected form `uid == member`): evaluate
`self.id == uid` — safe, `id` being `str(self)` — and return `True` on a
match without touching `guid`; otherwise evaluate `self.guid == uid`, which
raises `RecursionError` (`none`) for every member except BIOS. -/

def PartitionType.pyEq (t : PartitionType) (uid : String) : Option Bool :=
  if t.id == uid then some true
  else (t.guid).map (fun g => g == uid)

/-- Python `str.upper()` (character-wise; the inputs here are ASCII). -/

def pyUpper (s : String) : String :=
  String.mk (s.data.map Char.toUpper)

/-- Python `str.strip()`: drop whitespace from both ends. -/

def pyStrip (s : String) : String :=
  String.mk (((s.data.dropWhile Char.isWhitespace).reverse.dropWhile
    Char.isWhitespace).reverse)

/-- The member scan of `PartitionType.parse` in declaration order: `t == uid`
per member; a `RecursionError` escapes as soon as a non-BIOS member reaches
its `guid`; the unknown-type `raise` fires only if the scan completes. -/

def parseWalk (u : String) : List PartitionType → Except PyErr PartitionType
  | [] => Except.error PyErr.unknownType
  | t :: rest =>
    match t.pyEq u with
    | Option.none => Except.error PyErr.recursionError
    | some true => Except.ok t
    | some false => parseWalk u rest

/-- Source `diskutils.py`, `PartitionType.parse`: uppercase and strip the
input, then scan the members. -/

def PartitionType.parse (uid : String) : Except PyErr PartitionType :=
  parseWalk (pyStrip (pyUpper uid)) [PartitionType.BIOS, .EFI, .LinuxSwap, .ZFS]

/-! ## zfs.py — ZfsContainer property bag and Dataset mount/unmount (claim C3) -/

/-- A pool's or dataset's property bag, as the zfs tools expose it:
a flat string-keyed map; reading an unset key prints `-`. -/

abbrev PropMap := List (String × String)

/-- Command `zfs set key=value`: replace the binding (or add it). -/

def setProp : PropMap → String → String → PropMap
  | [], k, v => [(k, v)]
  | (k0, v0) :: rest, k, v =>
    if k0 = k then (k, v) :: rest else (k0, v0) :: setProp rest k v

/-- The raw string the management command prints for a property:
the stored value, or `-` when unset. -/

def rawProp (m : PropMap) (k : String) : String :=
  (m.lookup k).getD "-"

/-- Source `zfs.py`, `ZfsContainer.get_prop`: the printed value, with `""`
and `"-"` normalized to `None`. -/

def normalizeProp (raw : String) : Option String :=
  if raw = "" ∨ raw = "-" then Option.none else some raw

/-- Reading `ZfsContainer.get_prop` on a property bag. -/

def get_prop (m : PropMap) (k : String) : Option String :=
  normalizeProp (rawProp m k)

/-- Python `f"{value}"` applied to an `Optional[str]`: `None` renders as the
four-character string `"None"`. -/

def pyFormat (v : Option String) : String :=
  v.getD "None"

/-- Source `zfs.py`, `Dataset.mount`: the guard `mountpoint != orig_mntpoint`
compares a `pathlib.Path` against an `Optional[str]`; `Path.__eq__` returns
`NotImplemented` for both `str` and `None`, so `!=` is always `True`. -/

def pathNeqOptStr (_mountpoint : String) (_orig : Option String) : Bool :=
  true

/-- Source `zfs.py`, `Dataset.mount(path)`: read the current mountpoint
(normalized), pick `path or /mnt/<name>`, and — whenever the always-true
`Path`-vs-`str` inequality holds — set `mountpoint` to the new path and
`orig_mountpoint` to the (f-string-serialized) old one, then run `zfs mount`
(which does not touch properties). -/

def ds_mount (ds : PropMap) (dsName : String) (path : Option String) : PropMap :=
  let orig := get_prop ds "mountpoint"
  let mountpoint := path.getD ("/mnt/" ++ dsName)
  if pathNeqOptStr mountpoint orig then
    setProp (setProp ds "mountpoint" mountpoint) "orig_mountpoint" (pyFormat orig)
  else ds

/-- Source `zfs.py`, `Dataset.unmount`: run `zfs unmount`, read
`orig_mountpoint`; when present, `set_props(orig_mntpoint="", mountpoint=orig)`
— note the first keyword is the misspelled property name `orig_mntpoint`
(the local variable's name), exactly as in the source line. -/

def ds_unmount (ds : PropMap) : PropMap :=
  match get_prop ds "orig_mountpoint" with
  | some v => setProp (setProp ds "orig_mntpoint" "") "mountpoint" v
  | Option.none => ds

/-! ## bootpool.py — BootEnviroment construction and mount (claim C2) -/

/-- An element of a Python list handed to `str.join`: an actual string, or a
non-string object (carrying its repr, unused). -/

inductive PyStrOrObj
  | str (s : String)
  | obj (r : String)
  deriving DecidableEq, Repr

/-- Python `sep.join(items)`: concatenates when every item is a `str`;
raises `TypeError` (modelled `none`) when any item is not. -/

def py_str_join (sep : String) (items : List PyStrOrObj) : Option String :=
  if items.all (fun i => match i with | .str _ => true | .obj _ => false) then
    some (String.intercalate sep (items.map (fun i =>
      match i with | .str s => s | .obj r => r)))
  else Option.none

/-- Source `bootpool.py` line 91, `BootEnviroment.__init__`:
`super().__init__([pool.root_dataset, name])` reaches `Dataset.__init__`,
whose `"/".join` receives the `Dataset` OBJECT `pool.root_dataset` as its
first item — a `TypeError` on every call, so no `BootEnviroment` is ever
constructed (nor its `_mnts` list at lines 93-102). -/

def boot_enviroment_name (pool root beName : String) : Option String :=
  py_str_join "/" [PyStrOrObj.obj (pool ++ "/" ++ root), PyStrOrObj.str beName]

/-- The auxiliary-mount list `_mnts` that lines 93-102 of
`BootEnviroment.__init__` would build — dev, proc, sys, plus efivars when the
running system booted UEFI.  Dead code: `__init__` raises at line 91 first. -/

def aux_mnts (uefi : Bool) : List String :=
  ["dev", "proc", "sys"] ++ (if uefi then ["efivars"] else [])

/-- Mount acquisitions of `BootEnviroment.mount`. -/

inductive BEv
  | mountRoot
  | mountAux (n : String)
  | mountKeystore
  deriving DecidableEq, Repr

/-- Source `zfs.py` line 73: `Dataset.mount` returns the TUPLE
`(self.chroot, mountpoint)` after updating the mountpoint properties and
running `zfs mount` (the chroot defaults to `Root("/")`). -/

def ds_mount_pair (ds : PropMap) (dsName : String) (path : Option String) :
    PropMap × (String × String) :=
  (ds_mount ds dsName path, ("/", path.getD ("/mnt/" ++ dsName)))

/-- Source `bootpool.py` line 115: the attribute access
`super().mount(mnt).path` — a Python tuple has no attribute `path`, so this
raises `AttributeError` (modelled `none`). -/

def py_tuple_attr_path (_t : String × String) : Option String :=
  Option.none

/-- Source `bootpool.py` lines 113-122, `BootEnviroment.mount` on a
hypothetical instance (the class itself being unconstructible):
`super().mount(mnt)` mounts the root dataset and updates its properties, then
`Root(super().mount(mnt).path)` raises `AttributeError`; the auxiliary-mount
loop and the keystore mount below it (the unreachable `some` branch here)
never run. -/

def be_mount (uefi keystore : Bool) (ds : PropMap) (dsName mnt : String) :
    PropMap × List BEv × Option PyErr :=
  let r := ds_mount_pair ds dsName (some mnt)
  match py_tuple_attr_path r.2 with
  | Option.none => (r.1, [BEv.mountRoot], some PyErr.attributeError)
  | some _root =>
    (r.1, BEv.mountRoot :: (aux_mnts uefi).map BEv.mountAux
      ++ (if keystore then [BEv.mountKeystore] else []), Option.none)

/-! ## __init__.py / diskutils.py — partition planner (claims C4, C5) -/

/-- Source `__init__.py`, `MIN_ZFS_PARTITION_SIZE = 8 * UnitPrefix.GB`
(decimal gigabytes). -/

def MIN_ZFS_PARTITION_SIZE : Nat := 8 * GB

/-- Source `diskutils.py`, `MIN_SWAPSAFE_MEDIASIZE = 60 * UnitPrefix.GB`. -/

def MIN_SWAPSAFE_MEDIASIZE : Nat := 60 * GB

/-- Source `__init__.py`, `class DiskUse(Flag)`: `Bootloader = 1`. -/

def DiskUseBootloader : Nat := 1

/-- Source `__init__.py`, `class DiskUse(Flag)`: `BootPool = 3` (includes the
Bootloader bit). -/

def DiskUseBootPool : Nat := 3

/-- Python `Flag` membership: `flag in use` iff `use & flag == flag`. -/

def hasUse (use flag : Nat) : Bool :=
  use &&& flag == flag

/-- A disk as the planner sees it: its role bits, the sgdisk GUID codes of
the partitions currently visible on it (what `Partition.get_guid` would
report), its capacity and removable flag (kernel metadata), and the capacity
the kernel would report for a newly created pool-member partition. -/

structure TDisk where
  name : String
  use : Nat
  parts : List String
  capacity : Nat
  removable : Bool
  zfsPartCap : Nat
  deriving DecidableEq, Repr

/-- Source `diskutils.py`, `Disk.not_swap_safe`: capacity below 60 GB or
removable. -/

def not_swap_safe (d : TDisk) : Bool :=
  decide (d.capacity < MIN_SWAPSAFE_MEDIASIZE) || d.removable

/-- External tool invocations the planner performs. -/

inductive PEv
  | importPool
  | destroyPool
  | wipeTable (disk : String)
  | createPart (disk : String) (num : Nat) (ty : PartitionType)
  | wipeSwapSig (disk : String) (num : Nat)
  | createPool
  deriving DecidableEq, Repr

/-- The GUID code `sgdisk -i` reports (and `Disk.get_partition_guid` parses)
for a partition created with each short type-code — a fact about the
external partition tool, distinct from the broken Python `guid` property. -/

def sgdisk_guid : PartitionType → String :=
  PartitionType.guidLit

/-- The existence probe `next(disk.partitions(lambda p: p.get_guid() ==
PartitionType.t), None)`: the generator evaluates the reflected `__eq__` on
each visible partition's GUID string in order; a `RecursionError` escapes
from the first evaluation that reaches a non-BIOS `guid`. -/

def find_ptype (t : PartitionType) : List String → Except PyErr (Option String)
  | [] => Except.ok Option.none
  | g :: rest =>
    match t.pyEq g with
    | Option.none => Except.error PyErr.recursionError
    | some true => Except.ok (some g)
    | some false => find_ptype t rest

/-- Source `__init__.py` lines 88-115 (Bootloader role): the BIOS existence
check (safe — `__eq__` against BIOS terminates), BIOS creation when absent,
then the EFI existence check — which raises `RecursionError` as soon as any
partition is visible, because `__eq__` against EFI evaluates `EFI.guid`.
`newVisible` says whether partitions created by sgdisk become visible to
`/sys` and `/dev` during the run. -/

def bootloaderSteps (newVisible : Bool) (d : TDisk) (evs : List PEv)
    (parts : List String) :
    Except (List PEv × PyErr) (List PEv × List String) :=
  match find_ptype PartitionType.BIOS parts with
  | Except.error e => Except.error (evs, e)
  | Except.ok r =>
    let evs := evs ++
      (if r.isNone then [PEv.createPart d.name 0 PartitionType.BIOS] else [])
    let parts := parts ++
      (if r.isNone && newVisible then [sgdisk_guid PartitionType.BIOS] else [])
    match find_ptype PartitionType.EFI parts with
    | Except.error e => Except.error (evs, e)
    | Except.ok r2 =>
      let evs := evs ++
        (if r2.isNone then [PEv.createPart d.name 0 PartitionType.EFI] else [])
      let parts := parts ++
        (if r2.isNone && newVisible then [sgdisk_guid PartitionType.EFI] else [])
      Except.ok (evs, parts)

/-- Source `__init__.py` lines 134-155 (pool-member partition): the ZFS
existence check (raises `RecursionError` when any partition is visible),
creation of partition 3, then `disk.get_partition(3).capacity()`: when the
new partition is not visible, `get_partition(3)` is `None` and the attribute
access raises `AttributeError`; when it is visible, the capacity is compared
against `MIN_ZFS_PARTITION_SIZE` and `logger.error(raise_=True)` raises on a
shortfall. -/

def zfsStep (newVisible : Bool) (d : TDisk) (evs : List PEv)
    (parts : List String) : List PEv × Option PyErr :=
  match find_ptype PartitionType.ZFS parts with
  | Except.error e => (evs, some e)
  | Except.ok r =>
    if r.isNone then
      let evs := evs ++ [PEv.createPart d.name 3 PartitionType.ZFS]
      if newVisible then
        if d.zfsPartCap < MIN_ZFS_PARTITION_SIZE then (evs, some PyErr.tooSmall)
        else (evs, Option.none)
      else (evs, some PyErr.attributeError)
    else (evs, Option.none)

/-- Source `__init__.py` lines 117-132 (swap) then the pool-member step: when
swap is enabled, the LinuxSwap existence check runs (raising
`RecursionError` if any partition is visible); a missing swap partition is
created — with no swap-safety check anywhere — and, when it becomes visible,
`get_partition(4)` finds it and the residual-signature wipe runs. -/

def bootPoolSteps (swap newVisible : Bool) (d : TDisk) (evs : List PEv)
    (parts : List String) : List PEv × Option PyErr :=
  if swap then
    match find_ptype PartitionType.LinuxSwap parts with
    | Except.error e => (evs, some e)
    | Except.ok r =>
      let create := r.isNone
      let evs := evs ++
        (if create then [PEv.createPart d.name 4 PartitionType.LinuxSwap] else [])
      let parts := parts ++
        (if create && newVisible then [sgdisk_guid PartitionType.LinuxSwap] else [])
      let evs := evs ++
        (if create && newVisible then [PEv.wipeSwapSig d.name 4] else [])
      zfsStep newVisible d evs parts
  else zfsStep newVisible d evs parts

/-- Source `__init__.py`, the per-disk body of
`TrueNASInstaller.create_partitions`: optional wipe, then the Bootloader
steps, then the BootPool steps. -/

def doDisk (swap wipe newVisible : Bool) (d : TDisk) :
    List PEv × Option PyErr :=
  let parts0 := if wipe then ([] : List String) else d.parts
  let evs0 := if wipe then [PEv.wipeTable d.name] else []
  match (if hasUse d.use DiskUseBootloader then
      bootloaderSteps newVisible d evs0 parts0
    else Except.ok (evs0, parts0)) with
  | Except.error (evs, e) => (evs, some e)
  | Except.ok (evs1, parts1) =>
    if hasUse d.use DiskUseBootPool then bootPoolSteps swap newVisible d evs1 parts1
    else (evs1, Option.none)

/-- The disk loop of `create_partitions`: a raised error aborts processing of
the remaining disks, but the invocations already made stay made. -/

def partition_disks (swap wipe newVisible : Bool) :
    List TDisk → List PEv × Option PyErr
  | [] => ([], Option.none)
  | d :: rest =>
    let r := doDisk swap wipe newVisible d
    match r.2 with
    | some e => (r.1, some e)
    | Option.none =>
      let r2 := partition_disks swap wipe newVisible rest
      (r.1 ++ r2.1, r2.2)

/-- Source `__init__.py`, `TrueNASInstaller.create_partitions`: best-effort
pool import and destroy, then the per-disk loop. -/

def create_partitions (swap wipe newVisible : Bool) (disks : List TDisk) :
    List PEv × Option PyErr :=
  let r := partition_disks swap wipe newVisible disks
  (PEv.importPool :: PEv.destroyPool :: r.1, r.2)

/-- Source `__init__.py`, the format path of `TrueNASInstaller.install`:
`create_partitions(True)` then `create_bootpool()`; any error raised by the
planner propagates before any pool is created. -/

def install_format (swap newVisible : Bool) (disks : List TDisk) :
    List PEv × Option PyErr :=
  let r := create_partitions swap true newVisible disks
  match r.2 with
  | some e => (r.1, some e)
  | Option.none => (r.1 ++ [PEv.createPool], Option.none)

/-- Source `__main__.py`, `InteractiveInstaller.confirm_swap`: when swap is
still undecided, scan the selected disks and force it to `False` on the first
swap-unsafe disk; then, when still undecided or currently `True`, ask the
user. -/

def confirm_swap (swap : Option Bool) (disks : List TDisk)
    (userAnswer : Bool) : Option Bool :=
  let swap1 :=
    if swap = Option.none ∧ disks.any not_swap_safe then some false else swap
  if swap1 = Option.none ∨ swap1 = some true then some userAnswer else swap1

/-! ## __init__.py — boot-environment name collision resolution (claim C9) -/

/-- The probe string `f"{bootenv.name}-{i}"` of the collision loop in
`install_update` (Python `str(i)` renders decimal digits, i.e. `Nat.repr`). -/

def probe_dataset_name (name : String) (i : Nat) : String :=
  name ++ "-" ++ Nat.repr i

/-- The collision loop body: try `name-i`, `name-(i+1)`, … until a probe is
not among the existing datasets.  The Python loop is unbounded
(`itertools.count(1)`); the embedding carries fuel, and a fuel of
`existing.length + 1` provably always suffices (pigeonhole, below), so the
`none` case is unreachable from `resolve_collision`. -/

def probeLoop (name : String) (existing : List String) :
    Nat → Nat → Option String
  | 0, _ => Option.none
  | fuel + 1, i =>
    if probe_dataset_name name i ∈ existing then
      probeLoop name existing fuel (i + 1)
    else some (probe_dataset_name name i)

/-- Source `__init__.py`, the collision loop of `install_update` (lines
309-317), modelled in isolation: when the requested boot-environment name is
among the existing datasets, probe `name-1, name-2, …` and take the first
unused one.  In the program these lines are dead code: line 306 raises
`TypeError` first (see `boot_enviroment_name` and `install_update`). -/

def resolve_collision (existing : List String) (name : String) : String :=
  if name ∈ existing then
    (probeLoop name existing (existing.length + 1) 1).getD name
  else name

/-! ## __init__.py — install_update (claims C1, C8) -/

/-- The fields of `manifest.json` that `install_update` reads. -/

structure Manifest where
  size : Nat
  version : String
  kernel_version : String
  deriving DecidableEq, Repr

/-- The pool state `install_update` works over: the raw `bootfs` property
(the zfs tools print `-` when it is unset), the system's dataset list
(`zfs list`), and the pool's `free` property in bytes. -/

structure PoolSt where
  bootfsRaw : String
  datasets : List String
  free : Nat
  deriving DecidableEq, Repr

/-- The errors `install_update` can raise. -/

inductive IErr
  | typeError
  | insufficientSpace
  deriving DecidableEq, Repr

/-- Source `__init__.py`, `TrueNASInstaller.install_update` over the pool
state: format the required and free sizes (`format_bytes` raises a
`TypeError` on byte counts of at most 1), and fail with the
insufficient-space error — before any dataset is created — when
`free < required`.  Otherwise the very next statement,
`bootenv = self.boot_pool.boot_enviroment(manifest["version"])` at line 306,
raises `TypeError` inside `BootEnviroment.__init__` (the `"/".join` over the
`Dataset` object, see `boot_enviroment_name`), so everything after it —
reading `bootfs` (line 308), listing datasets and the collision loop (lines
309-317), dataset creation, the population block and its rollback handler
(lines 318-459) — is unreachable and the pool state is never touched. -/

def install_update (st : PoolSt) (m : Manifest) (_cleanup : Bool) :
    PoolSt × Option IErr :=
  match format_bytes m.size with
  | Option.none => (st, some IErr.typeError)
  | some _ =>
    match format_bytes st.free with
    | Option.none => (st, some IErr.typeError)
    | some _ =>
      if st.free < m.size then (st, some IErr.insufficientSpace)
      else
        match boot_enviroment_name "boot-pool" "ROOT" m.version with
        | Option.none => (st, some IErr.typeError)
        | some _beName => (st, Option.none)  -- unreachable: the join always raises

/-! ## Theorems -/

/-! ### Claim C10 — find_unit / format_bytes -/

theorem kiB_val : kiB = 1024 := rfl

theorem MiB_val : MiB = 1048576 := rfl

theorem GiB_val : GiB = 1073741824 := rfl

theorem TiB_val : TiB = 1099511627776 := rfl

theorem one_lt_cast_div {m num : Nat} (hm : 0 < m) (h : m < num) :
    1 < (num : ℚ) / (m : ℚ) := by
  rw [one_lt_div (by exact_mod_cast hm)]
  exact_mod_cast h

theorem findUnitWalk_cons (num mult : Nat) (hm : 0 < mult) (u : String)
    (rest : List (Nat × String)) :
    findUnitWalk (num : ℚ) ((mult, u) :: rest) =
      if mult < num then some ((num : ℚ) / (mult : ℚ), u)
      else findUnitWalk (num : ℚ) rest := by
  have hiff : (1 < (num : ℚ) / (mult : ℚ)) ↔ mult < num := by
    rw [one_lt_div (by exact_mod_cast hm)]
    exact_mod_cast Iff.rfl
  simp only [findUnitWalk]
  by_cases h : mult < num
  · rw [if_pos (hiff.mpr h), if_pos h]
  · rw [if_neg (fun hc => h (hiff.mp hc)), if_neg h]

theorem find_unit_eq (num : Nat) :
    find_unit num =
      if TiB < num then some ((num : ℚ) / (TiB : ℚ), "TiB")
      else if GiB < num then some ((num : ℚ) / (GiB : ℚ), "GiB")
      else if MiB < num then some ((num : ℚ) / (MiB : ℚ), "MiB")
      else if kiB < num then some ((num : ℚ) / (kiB : ℚ), "kiB")
      else if 1 < num then some ((num : ℚ) / ((1 : Nat) : ℚ), "B")
      else none := by
  unfold find_unit unitTable
  rw [findUnitWalk_cons num TiB (by rw [TiB_val]; omega),
    findUnitWalk_cons num GiB (by rw [GiB_val]; omega),
    findUnitWalk_cons num MiB (by rw [MiB_val]; omega),
    findUnitWalk_cons num kiB (by rw [kiB_val]; omega),
    findUnitWalk_cons num 1 (by omega)]
  rfl

/-- C10: `find_unit` returns `None` for every byte count `num ≤ 1` (so
`format_bytes`, which destructures its result, is defined exactly when
`num > 1`), and for every `num > 1` it returns the pair
`(num / mult, unit)` where `value > 1` and `(mult, unit)` is the entry of the
unit table (TiB, GiB, MiB, kiB, B) with the largest multiplier strictly less
than `num`. -/

theorem find_unit_none_iff_le_one_and_largest_unit :
    (∀ num : Nat, num ≤ 1 → find_unit num = none) ∧
    (∀ num : Nat, 1 < num →
      ∃ m : Nat, ∃ u : String, find_unit num = some ((num : ℚ) / (m : ℚ), u) ∧
        1 < (num : ℚ) / (m : ℚ) ∧ (m, u) ∈ unitTable ∧ m < num ∧
        ∀ p ∈ unitTable, m < p.1 → num ≤ p.1) ∧
    (∀ num : Nat, (format_bytes num).isSome ↔ 1 < num) := by
  have hk := kiB_val; have hM := MiB_val; have hG := GiB_val; have hT := TiB_val
  have hnone : ∀ num : Nat, num ≤ 1 → find_unit num = none := by
    intro num h
    rw [find_unit_eq]
    rw [if_neg (by omega), if_neg (by omega), if_neg (by omega),
      if_neg (by omega), if_neg (by omega)]
  have hsome : ∀ num : Nat, 1 < num →
      ∃ m : Nat, ∃ u : String, find_unit num = some ((num : ℚ) / (m : ℚ), u) ∧
        1 < (num : ℚ) / (m : ℚ) ∧ (m, u) ∈ unitTable ∧ m < num ∧
        ∀ p ∈ unitTable, m < p.1 → num ≤ p.1 := by
    intro num h1
    rw [find_unit_eq]
    by_cases h5 : TiB < num
    · refine ⟨TiB, "TiB", by rw [if_pos h5], one_lt_cast_div (by omega) h5,
        by simp [unitTable], h5, ?_⟩
      simp only [unitTable, List.mem_cons, List.not_mem_nil, or_false]
      rintro p (rfl | rfl | rfl | rfl | rfl) <;> omega
    by_cases h4 : GiB < num
    · refine ⟨GiB, "GiB", by rw [if_neg h5, if_pos h4], one_lt_cast_div (by omega) h4,
        by simp [unitTable], h4, ?_⟩
      simp only [unitTable, List.mem_cons, List.not_mem_nil, or_false]
      rintro p (rfl | rfl | rfl | rfl | rfl) <;> omega
    by_cases h3 : MiB < num
    · refine ⟨MiB, "MiB", by rw [if_neg h5, if_neg h4, if_pos h3],
        one_lt_cast_div (by omega) h3, by simp [unitTable], h3, ?_⟩
      simp only [unitTable, List.mem_cons, List.not_mem_nil, or_false]
      rintro p (rfl | rfl | rfl | rfl | rfl) <;> omega
    by_cases h2 : kiB < num
    · refine ⟨kiB, "kiB", by rw [if_neg h5, if_neg h4, if_neg h3, if_pos h2],
        one_lt_cast_div (by omega) h2, by simp [unitTable], h2, ?_⟩
      simp only [unitTable, List.mem_cons, List.not_mem_nil, or_false]
      rintro p (rfl | rfl | rfl | rfl | rfl) <;> omega
    · refine ⟨1, "B", by rw [if_neg h5, if_neg h4, if_neg h3, if_neg h2, if_pos h1],
        one_lt_cast_div (by omega) h1, by simp [unitTable], h1, ?_⟩
      simp only [unitTable, List.mem_cons, List.not_mem_nil, or_false]
      rintro p (rfl | rfl | rfl | rfl | rfl) <;> omega
  refine ⟨hnone, hsome, fun num => ?_⟩
  constructor
  · intro hs
    by_contra hle
    rw [show format_bytes num = find_unit num from rfl, hnone num (by omega)] at hs
    simp at hs
  · intro h1
    obtain ⟨m, u, heq, -⟩ := hsome num h1
    rw [show format_bytes num = find_unit num from rfl, heq]
    rfl

/-- Witness for C10: concrete instances — `find_unit 1 = none`, and at
`num = 2049` the chosen unit is kiB with value `2049/1024 > 1`. -/

theorem find_unit_witness :
    find_unit 1 = none ∧
    (∃ m : Nat, ∃ u : String, find_unit 2049 = some ((2049 : ℚ) / (m : ℚ), u) ∧
      1 < ((2049 : Nat) : ℚ) / (m : ℚ) ∧ (m, u) ∈ unitTable ∧ m < 2049 ∧
      ∀ p ∈ unitTable, m < p.1 → 2049 ≤ p.1) ∧
    ((format_bytes 2049).isSome ↔ 1 < 2049) :=
  ⟨find_unit_none_iff_le_one_and_largest_unit.1 1 (by omega),
    find_unit_none_iff_le_one_and_largest_unit.2.1 2049 (by omega),
    find_unit_none_iff_le_one_and_largest_unit.2.2 2049⟩

/-- C6 counterexample: an option whose value is Python `None` (falsy) is not
omitted — the loop appends it as a bare flag name, contradicting the claim
that every falsy value is omitted entirely. -/

theorem mount_opts_none_value_not_omitted :
    mount_opts [("loop", PyVal.none)] = ["loop"] ∧
    List.filterMap specSerializeOption [("loop", PyVal.none)] = [] ∧
    mount_opts [("loop", PyVal.none)] ≠
      List.filterMap specSerializeOption [("loop", PyVal.none)] := by
  decide

theorem mountOptsLoop_eq (l : List (String × PyVal)) :
    ∀ acc : List String,
      mountOptsLoop l acc = acc ++ l.filterMap serializeOptionActual := by
  induction l with
  | nil => intro acc; simp [mountOptsLoop]
  | cons nv rest ih =>
    intro acc
    obtain ⟨name, value⟩ := nv
    by_cases ht : truthy value
    · simp [mountOptsLoop, serializeOptionActual, ht, ih]
    · by_cases hf : value = PyVal.bool false
      · subst hf
        simp [mountOptsLoop, serializeOptionActual, truthy, ih]
      · simp [mountOptsLoop, serializeOptionActual, ht, hf, ih]

/-- C6 (amended): per option — boolean `True` → bare flag name; boolean
`False` → omitted; any other falsy value (`None`, `0`, `""`) → bare flag name;
any other value → `name=value`; the selected options are joined by commas into
a single `-o` argument (emitted only when at least one option was selected). -/

theorem mount_opts_serialization :
    (∀ options : List (String × PyVal),
      mount_opts options = options.filterMap serializeOptionActual) ∧
    (∀ options : List (String × PyVal),
      mount_o_args options =
        if options.isEmpty ∨ mount_opts options = [] then []
        else ["-o", String.intercalate "," (mount_opts options)]) := by
  constructor
  · intro options
    exact mountOptsLoop_eq options []
  · intro options
    by_cases he : options.isEmpty
    · simp [mount_o_args, he]
    · by_cases hm : mount_opts options = []
      · simp [mount_o_args, he, hm]
      · have : 0 < (mount_opts options).length := by
          cases h : mount_opts options with
          | nil => exact absurd h hm
          | cons a l => simp
        simp [mount_o_args, he, hm, this]

/-- C7: `PartitionType.__eq__` accepts neither claimed representation:
`id` is `str(self)` = `"PartitionType.<Name>"`, not the short type-code, and
the `guid` property's own comparisons re-enter `__eq__`, so once the `id`
test fails the equality test raises `RecursionError` for every member except
BIOS — in particular on the EFI short code and on the EFI GUID in either
case — while BIOS compares `False` against its own short code; only the BIOS
GUID (and the `"PartitionType.<Name>"` strings) compare equal, and `parse`
raises `RecursionError` on every input not matched by BIOS first. -/
theorem pyEq_raises_recursion_error :
    PartitionType.EFI.pyEq "EF00" = Option.none ∧
    PartitionType.EFI.pyEq "C12A7328-F81F-11D2-BA4B-00A0C93EC93B"
      = Option.none ∧
    PartitionType.EFI.pyEq "c12a7328-f81f-11d2-ba4b-00a0c93ec93b"
      = Option.none ∧
    PartitionType.BIOS.pyEq "EF02" = some false ∧
    PartitionType.BIOS.pyEq "21686148-6449-6E6F-744E-656564454649"
      = some true ∧
    PartitionType.EFI.id = "PartitionType.EFI" ∧
    PartitionType.parse "EF02" = Except.error PyErr.recursionError ∧
    PartitionType.parse "21686148-6449-6E6F-744E-656564454649"
      = Except.ok PartitionType.BIOS :=
  ⟨rfl, rfl, rfl, rfl, rfl, rfl, rfl, rfl⟩

/-- C3: evaluating `Dataset.mount`/`Dataset.unmount` on a dataset whose
permanent mountpoint is `/`, mounted at the temporary path `/mnt/be`:
unmount does restore `mountpoint` to `/`, but the `orig_mountpoint` marker is
NOT cleared — it still reads `/` — because the code clears the misspelled
property `orig_mntpoint` (setting it to the empty string) instead. -/

theorem ds_unmount_leaves_orig_mountpoint :
    get_prop (ds_unmount (ds_mount [("mountpoint", "/")] "boot-pool/ROOT/be"
      (some "/mnt/be"))) "mountpoint" = some "/" ∧
    get_prop (ds_unmount (ds_mount [("mountpoint", "/")] "boot-pool/ROOT/be"
      (some "/mnt/be"))) "orig_mountpoint" = some "/" ∧
    rawProp (ds_unmount (ds_mount [("mountpoint", "/")] "boot-pool/ROOT/be"
      (some "/mnt/be"))) "orig_mntpoint" = "" ∧
    get_prop (ds_mount [("mountpoint", "/")] "boot-pool/ROOT/be"
      (some "/mnt/be")) "mountpoint" = some "/mnt/be" := by
  decide

theorem boot_enviroment_name_none (pool root beName : String) :
    boot_enviroment_name pool root beName = Option.none := by
  rfl

/-- C2: no boot-environment mount/unmount cycle can occur in the source.
`BootEnviroment` is unconstructible — the dataset-name join in `__init__`
raises `TypeError` for every pool and name — and even on a hypothetical
instance, `mount` raises `AttributeError` at `super().mount(mnt).path` right
after mounting the root dataset: no auxiliary filesystem or keystore is ever
mounted, so there is no acquisition order for `unmount` (itself dead code, a
forward-order loop ending in a malformed `super().unmount` call) to reverse. -/
theorem be_cycle_unreachable :
    (∀ pool root beName : String,
      boot_enviroment_name pool root beName = Option.none) ∧
    (∀ (uefi keystore : Bool) (ds : PropMap) (dsName mnt : String),
      (be_mount uefi keystore ds dsName mnt).2.2 = some PyErr.attributeError ∧
      (be_mount uefi keystore ds dsName mnt).2.1 = [BEv.mountRoot] ∧
      ∀ n, BEv.mountAux n ∉ (be_mount uefi keystore ds dsName mnt).2.1) := by
  refine ⟨fun pool root beName => rfl, ?_⟩
  intro uefi keystore ds dsName mnt
  refine ⟨rfl, rfl, ?_⟩
  intro n
  show BEv.mountAux n ∉ [BEv.mountRoot]
  simp

/-- C4: the planner enforces no swap safety.  On a wiped 50 GB (not
swap-safe) pool-member disk with swap requested: when newly created
partitions become visible, the run crashes with `RecursionError` at the EFI
existence check — right after creating the BIOS partition, before any swap
step; when they stay invisible, the swap partition IS created on the unsafe
disk — `not_swap_safe` is never consulted by the planner — and the run then
crashes with `AttributeError` at `get_partition(3).capacity()`.  The only
swap-safety enforcement in the sources is the interactive `confirm_swap`,
which forces swap off for this disk while the flag is undecided. -/
theorem create_partitions_no_swap_safety :
    not_swap_safe ⟨"sda", 3, [], 50 * GB, false, 20 * GB⟩ = true ∧
    (create_partitions true true true
        [⟨"sda", 3, [], 50 * GB, false, 20 * GB⟩]).2
      = some PyErr.recursionError ∧
    PEv.createPart "sda" 4 PartitionType.LinuxSwap ∉
      (create_partitions true true true
        [⟨"sda", 3, [], 50 * GB, false, 20 * GB⟩]).1 ∧
    PEv.createPart "sda" 4 PartitionType.LinuxSwap ∈
      (create_partitions true true false
        [⟨"sda", 3, [], 50 * GB, false, 20 * GB⟩]).1 ∧
    (create_partitions true true false
        [⟨"sda", 3, [], 50 * GB, false, 20 * GB⟩]).2
      = some PyErr.attributeError ∧
    (∀ ans : Bool, confirm_swap Option.none
      [⟨"sda", 3, [], 50 * GB, false, 20 * GB⟩] ans = some false) := by
  decide

/-- C5: the pool-member size check is both mis-calibrated and unreachable.
The constant is `8 * UnitPrefix.GB` = 8·10⁹ bytes (decimal GB), below the
claimed 8 GiB; and on a wiped pool-member disk the planner never reaches the
check at line 151: with visible new partitions it crashes with
`RecursionError` at the EFI existence check, and with invisible ones
`get_partition(3)` is `None` and `.capacity()` raises `AttributeError` — in
both environments before any pool-creation invocation. -/
theorem create_partitions_size_check_unreachable :
    MIN_ZFS_PARTITION_SIZE = 8000000000 ∧ (8000000000 : Nat) < 8 * 2 ^ 30 ∧
    (install_format false true [⟨"sda", 3, [], 100 * GB, false, 8 * GB⟩]).2
      = some PyErr.recursionError ∧
    (install_format false false [⟨"sda", 3, [], 100 * GB, false, 8 * GB⟩]).2
      = some PyErr.attributeError ∧
    PEv.createPool ∉
      (install_format false true [⟨"sda", 3, [], 100 * GB, false, 8 * GB⟩]).1 ∧
    PEv.createPool ∉
      (install_format false false
        [⟨"sda", 3, [], 100 * GB, false, 8 * GB⟩]).1 := by
  decide

theorem toDigitsCore_eq_digits :
    ∀ fuel n : Nat, n < fuel → ∀ ds : List Char,
      Nat.toDigitsCore 10 fuel n ds =
        (if n = 0 then ['0']
          else ((Nat.digits 10 n).map Nat.digitChar).reverse) ++ ds := by
  intro fuel
  induction fuel with
  | zero => intro n h ds; exact absurd h (Nat.not_lt_zero n)
  | succ fuel ih =>
    intro n h ds
    simp only [Nat.toDigitsCore]
    by_cases h0 : n / 10 = 0
    · rw [if_pos h0]
      by_cases hn : n = 0
      · subst hn
        simp [Nat.digitChar]
      · have hlt : n < 10 := by
          by_contra hge
          push_neg at hge
          have := Nat.div_pos hge (by norm_num)
          omega
        rw [if_neg hn, Nat.digits_def' (by norm_num : (1 : ℕ) < 10)
          (Nat.pos_of_ne_zero hn), h0]
        simp [Nat.mod_eq_of_lt hlt]
    · rw [if_neg h0]
      have hn : n ≠ 0 := fun e => h0 (by simp [e])
      have hdf : n / 10 < fuel := by
        have h1 : n / 10 < n := Nat.div_lt_self (Nat.pos_of_ne_zero hn) (by norm_num)
        omega
      rw [ih (n / 10) hdf, if_neg h0,
        Nat.digits_def' (by norm_num : (1 : ℕ) < 10) (Nat.pos_of_ne_zero hn)]
      simp [hn, List.append_assoc]

theorem repr_eq_digits (n : Nat) :
    Nat.repr n = (if n = 0 then ['0']
      else ((Nat.digits 10 n).map Nat.digitChar).reverse).asString := by
  show (Nat.toDigits 10 n).asString = _
  unfold Nat.toDigits
  rw [toDigitsCore_eq_digits (n + 1) n (Nat.lt_succ_self n) []]
  simp

theorem digitChar_injOn :
    ∀ a : Nat, a < 10 → ∀ b : Nat, b < 10 →
      Nat.digitChar a = Nat.digitChar b → a = b := by
  decide

theorem map_digitChar_inj :
    ∀ {l1 l2 : List Nat}, (∀ d ∈ l1, d < 10) → (∀ d ∈ l2, d < 10) →
      l1.map Nat.digitChar = l2.map Nat.digitChar → l1 = l2 := by
  intro l1
  induction l1 with
  | nil => intro l2 _ _ h; cases l2 <;> simp_all
  | cons a t ih =>
    intro l2 h1 h2 h
    cases l2 with
    | nil => simp_all
    | cons b t2 =>
      simp only [List.map_cons, List.cons.injEq] at h
      have hab := digitChar_injOn a (h1 a (by simp)) b (h2 b (by simp)) h.1
      subst hab
      rw [ih (fun d hd => h1 d (by simp [hd])) (fun d hd => h2 d (by simp [hd])) h.2]

theorem nat_repr_injective : Function.Injective Nat.repr := by
  intro m n h
  rw [repr_eq_digits, repr_eq_digits, List.asString_inj] at h
  by_cases hm : m = 0 <;> by_cases hn : n = 0
  · omega
  · exfalso
    rw [if_pos hm, if_neg hn] at h
    have h' : (Nat.digits 10 n).map Nat.digitChar = ['0'] := by
      have := congrArg List.reverse h
      simpa using this.symm
    have hd : Nat.digits 10 n = [0] :=
      map_digitChar_inj (fun d hd => Nat.digits_lt_base (by norm_num) hd)
        (by simp) (by simpa [Nat.digitChar] using h')
    have : n = Nat.ofDigits 10 [0] := by rw [← hd, Nat.ofDigits_digits]
    simp [Nat.ofDigits] at this
    exact hn this
  · exfalso
    rw [if_neg hm, if_pos hn] at h
    have h' : (Nat.digits 10 m).map Nat.digitChar = ['0'] := by
      have := congrArg List.reverse h
      simpa using this
    have hd : Nat.digits 10 m = [0] :=
      map_digitChar_inj (fun d hd => Nat.digits_lt_base (by norm_num) hd)
        (by simp) (by simpa [Nat.digitChar] using h')
    have : m = Nat.ofDigits 10 [0] := by rw [← hd, Nat.ofDigits_digits]
    simp [Nat.ofDigits] at this
    exact hm this
  · rw [if_neg hm, if_neg hn] at h
    have h' := List.reverse_injective h
    have hd := map_digitChar_inj (fun d hd => Nat.digits_lt_base (by norm_num) hd)
      (fun d hd => Nat.digits_lt_base (by norm_num) hd) h'
    calc m = Nat.ofDigits 10 (Nat.digits 10 m) := (Nat.ofDigits_digits 10 m).symm
      _ = Nat.ofDigits 10 (Nat.digits 10 n) := by rw [hd]
      _ = n := Nat.ofDigits_digits 10 n

theorem string_append_left_cancel :
    ∀ {s t u : String}, s ++ t = s ++ u → t = u := by
  intro s t u h
  have hd := congrArg String.data h
  simp only [String.data_append] at hd
  have h2 := List.append_cancel_left hd
  cases t
  cases u
  exact congrArg String.mk h2

theorem probe_dataset_name_inj (name : String) :
    ∀ {a b : Nat}, probe_dataset_name name a = probe_dataset_name name b →
      a = b := by
  intro a b h
  exact nat_repr_injective (string_append_left_cancel h)

theorem exists_unused_suffix (existing : List String) (name : String) :
    ∃ j : Nat, j < existing.length + 1 ∧
      probe_dataset_name name (j + 1) ∉ existing := by
  by_contra hall
  push_neg at hall
  have hinj : Function.Injective fun j : Nat => probe_dataset_name name (j + 1) := by
    intro a b h
    have := probe_dataset_name_inj name h
    omega
  have hsub : (Finset.range (existing.length + 1)).image
      (fun j => probe_dataset_name name (j + 1)) ⊆ existing.toFinset := by
    intro x hx
    rw [Finset.mem_image] at hx
    obtain ⟨j, hj, rfl⟩ := hx
    rw [Finset.mem_range] at hj
    exact List.mem_toFinset.mpr (hall j hj)
  have hcard := Finset.card_le_card hsub
  rw [Finset.card_image_of_injective _ hinj, Finset.card_range] at hcard
  have hle := existing.toFinset_card_le
  omega

theorem probeLoop_finds_least (name : String) (existing : List String) :
    ∀ fuel start : Nat,
      (∃ j, j < fuel ∧ probe_dataset_name name (start + j) ∉ existing) →
      ∃ k, probeLoop name existing fuel start = some (probe_dataset_name name k) ∧
        start ≤ k ∧ probe_dataset_name name k ∉ existing ∧
        ∀ j, start ≤ j → j < k → probe_dataset_name name j ∈ existing := by
  intro fuel
  induction fuel with
  | zero =>
    rintro start ⟨j, hj, -⟩
    omega
  | succ fuel ih =>
    rintro start ⟨j, hj, hfree⟩
    simp only [probeLoop]
    by_cases hmem : probe_dataset_name name start ∈ existing
    · rw [if_pos hmem]
      have hex : ∃ j2, j2 < fuel ∧
          probe_dataset_name name (start + 1 + j2) ∉ existing := by
        cases j with
        | zero => exact absurd hmem (by simpa using hfree)
        | succ j =>
          refine ⟨j, by omega, ?_⟩
          have heq : start + 1 + j = start + (j + 1) := by omega
          rw [heq]
          exact hfree
      obtain ⟨k, hk, hks, hkfree, hleast⟩ := ih (start + 1) hex
      refine ⟨k, hk, by omega, hkfree, ?_⟩
      intro j2 hj1 hj2
      rcases Nat.eq_or_lt_of_le hj1 with heq | hlt
      · rw [← heq]
        exact hmem
      · exact hleast j2 hlt hj2
    · rw [if_neg hmem]
      exact ⟨start, rfl, Nat.le_refl _, hmem, fun j2 h1 h2 => absurd h2 (by omega)⟩

/-- C9: whenever the requested boot-environment name collides with an existing
dataset, `install_update` picks `name-k` for the smallest positive integer `k`
such that `name-k` is not an existing dataset. -/

theorem resolve_collision_smallest_suffix :
    ∀ (existing : List String) (name : String), name ∈ existing →
      ∃ k, resolve_collision existing name = probe_dataset_name name k ∧
        1 ≤ k ∧ probe_dataset_name name k ∉ existing ∧
        ∀ j, 1 ≤ j → j < k → probe_dataset_name name j ∈ existing := by
  intro existing name hmem
  unfold resolve_collision
  rw [if_pos hmem]
  obtain ⟨j, hj, hfree⟩ := exists_unused_suffix existing name
  have hex : ∃ j2, j2 < existing.length + 1 ∧
      probe_dataset_name name (1 + j2) ∉ existing :=
    ⟨j, hj, by rwa [Nat.add_comm 1 j]⟩
  obtain ⟨k, hk, h1, h2, h3⟩ :=
    probeLoop_finds_least name existing (existing.length + 1) 1 hex
  exact ⟨k, by rw [hk]; rfl, h1, h2, h3⟩

/-- Witness for C9: with existing datasets {X, X-1, X-2} for X = "24.04",
the new boot environment is named X-3. -/

theorem resolve_collision_smallest_suffix_witness :
    ("24.04" ∈ ["24.04", "24.04-1", "24.04-2"]) ∧
    (∃ k, resolve_collision ["24.04", "24.04-1", "24.04-2"] "24.04" =
        probe_dataset_name "24.04" k ∧ 1 ≤ k ∧
        probe_dataset_name "24.04" k ∉ ["24.04", "24.04-1", "24.04-2"] ∧
        ∀ j, 1 ≤ j → j < k →
          probe_dataset_name "24.04" j ∈ ["24.04", "24.04-1", "24.04-2"]) ∧
    resolve_collision ["24.04", "24.04-1", "24.04-2"] "24.04" = "24.04-3" :=
  ⟨by decide,
    resolve_collision_smallest_suffix ["24.04", "24.04-1", "24.04-2"] "24.04"
      (by decide),
    by decide⟩

theorem format_bytes_of_one_lt (n : Nat) (h : 1 < n) :
    ∃ p, format_bytes n = some p := by
  rw [show format_bytes n = find_unit n from rfl, find_unit_eq]
  split_ifs <;> exact ⟨_, rfl⟩

/-- C8: whenever the manifest's required size exceeds the pool's free space,
`install_update` raises the insufficient-space error and the pool state is
returned unchanged — no dataset is created and no other destructive step is
performed.  (The `1 < size` bounds are definedness side conditions:
`format_bytes`, called before the comparison, raises a `TypeError` on byte
counts of at most 1.  The space check at lines 301-303 precedes the
`TypeError` that line 306 raises on every run that passes it.) -/
theorem install_update_insufficient_space :
    ∀ (st : PoolSt) (m : Manifest) (cleanup : Bool),
      1 < m.size → 1 < st.free → st.free < m.size →
      install_update st m cleanup = (st, some IErr.insufficientSpace) := by
  intro st m cleanup h1 h2 h3
  obtain ⟨p1, hp1⟩ := format_bytes_of_one_lt m.size h1
  obtain ⟨p2, hp2⟩ := format_bytes_of_one_lt st.free h2
  unfold install_update
  rw [hp1, hp2]
  simp [h3]

/-- Witness for C8: the spec's concrete instance — `free = 10_000_000_000`,
`manifest.size = 10_000_000_001`. -/
theorem install_update_insufficient_space_witness :
    install_update ⟨"-", ["boot-pool", "boot-pool/ROOT"], 10000000000⟩
        ⟨10000000001, "24.04", "6.6"⟩ true =
      (⟨"-", ["boot-pool", "boot-pool/ROOT"], 10000000000⟩,
        some IErr.insufficientSpace) :=
  install_update_insufficient_space
    ⟨"-", ["boot-pool", "boot-pool/ROOT"], 10000000000⟩
    ⟨10000000001, "24.04", "6.6"⟩ true
    (by norm_num) (by norm_num) (by norm_num)

/-- C1: for every call that passes the space check, `install_update` raises
`TypeError` at the `BootEnviroment` construction (line 306) — the `"/".join`
inside `BootEnviroment.__init__` receives the `Dataset` object
`pool.root_dataset` — with the pool state untouched: `bootfs` keeps its raw
pre-call value and no dataset is created or destroyed, because the
population block, and with it the claimed rollback behaviour (and the latent
`bootfs := "None"` slip in its `except` handler), is unreachable. -/
theorem install_update_typeerror_before_population :
    ∀ (st : PoolSt) (m : Manifest) (cleanup : Bool),
      1 < m.size → 1 < st.free → ¬ st.free < m.size →
      install_update st m cleanup = (st, some IErr.typeError) := by
  intro st m cleanup h1 h2 h3
  obtain ⟨p1, hp1⟩ := format_bytes_of_one_lt m.size h1
  obtain ⟨p2, hp2⟩ := format_bytes_of_one_lt st.free h2
  unfold install_update
  rw [hp1, hp2]
  simp [h3, boot_enviroment_name_none]

/-- Witness for C1: a pool with `bootfs` unset and enough free space — the
call returns the `TypeError` with the state unchanged. -/
theorem install_update_typeerror_before_population_witness :
    install_update ⟨"-", ["boot-pool", "boot-pool/ROOT"], 4000⟩
        ⟨3000, "24.04", "6.6"⟩ true =
      (⟨"-", ["boot-pool", "boot-pool/ROOT"], 4000⟩, some IErr.typeError) :=
  install_update_typeerror_before_population
    ⟨"-", ["boot-pool", "boot-pool/ROOT"], 4000⟩ ⟨3000, "24.04", "6.6"⟩ true
    (by norm_num) (by norm_num) (by norm_num)

/-- C9: `install_update` crashes with `TypeError` at the `BootEnviroment`
construction (line 306) before the dataset list is read or the collision
loop (lines 309-317) runs, so no boot environment is ever named — with
existing datasets {X, X-1, X-2} nothing named X-3 is created and the pool
state is unchanged.  The loop's own logic, modelled in isolation as
`resolve_collision`, would have picked exactly X-3 (and in general the
smallest unused positive suffix). -/
theorem install_update_crashes_before_collision_loop :
    install_update
        ⟨"-", ["boot-pool/ROOT/24.04", "boot-pool/ROOT/24.04-1",
          "boot-pool/ROOT/24.04-2"], 4000⟩ ⟨3000, "24.04", "6.6"⟩ true =
      (⟨"-", ["boot-pool/ROOT/24.04", "boot-pool/ROOT/24.04-1",
        "boot-pool/ROOT/24.04-2"], 4000⟩, some IErr.typeError) ∧
    resolve_collision ["boot-pool/ROOT/24.04", "boot-pool/ROOT/24.04-1",
        "boot-pool/ROOT/24.04-2"] "boot-pool/ROOT/24.04"
      = "boot-pool/ROOT/24.04-3" := by
  constructor
  · obtain ⟨p1, hp1⟩ := format_bytes_of_one_lt 3000 (by norm_num)
    obtain ⟨p2, hp2⟩ := format_bytes_of_one_lt 4000 (by norm_num)
    unfold install_update
    rw [hp1, hp2]
    norm_num [boot_enviroment_name_none]
  · decide
